import Mathlib

/-!
Verification of `xgboost/libpath.py` (`find_lib_path`).

The function is embedded shallowly: the ambient inputs that the Python code
reads (the package's own directory, `sys.base_prefix`, `sys.platform`,
`platform.system()`, `os.environ`, and the filesystem predicates
`os.path.exists` / `os.path.isfile`) become fields of an explicit `Config`
record, and `find_lib_path` becomes a pure function of that record returning
`Except String (List String)` — `Except.error msg` models raising
`XGBoostLibraryNotFound(msg)`.

`os.path.join` is modelled by `joinPath`, the two-argument POSIX join
(`"/"` as the separator, uniformly for all platform values): if the second
component is absolute it wins; otherwise it is appended, inserting a
separator unless the first component is empty or already ends in one.
-/

namespace XGBoost

/-- Python `s.startswith(p)`, modelled over the character list. -/
def strStartsWith (s p : String) : Bool := p.data.isPrefixOf s.data

/-- Python `s.endswith(p)`, modelled over the character list. -/
def strEndsWith (s p : String) : Bool := p.data.isSuffixOf s.data

def exceptDecEq {e a : Type} [DecidableEq e] [DecidableEq a] : DecidableEq (Except e a)
  | Except.error x, Except.error y =>
    if h : x = y then Decidable.isTrue (h ▸ rfl)
    else Decidable.isFalse (fun q => h (Except.error.inj q))
  | Except.error _, Except.ok _ => Decidable.isFalse (fun q => Except.noConfusion q)
  | Except.ok _, Except.error _ => Decidable.isFalse (fun q => Except.noConfusion q)
  | Except.ok x, Except.ok y =>
    if h : x = y then Decidable.isTrue (h ▸ rfl)
    else Decidable.isFalse (fun q => h (Except.ok.inj q))

instance {e a : Type} [DecidableEq e] [DecidableEq a] : DecidableEq (Except e a) :=
  exceptDecEq

/-- Ambient state read by `find_lib_path`: package directory, interpreter
base prefix, platform identifiers, environment, and filesystem metadata. -/
structure Config where
  currPath : String
  basePref : String
  sysPlatform : String
  system : String
  env : String → Option String
  pathExists : String → Bool
  isFile : String → Bool

/-- `os.path.join(a, b)` (POSIX semantics, two arguments). -/
def joinPath (a b : String) : String :=
  if strStartsWith b "/" then b
  else if a = "" then b
  else if strEndsWith a "/" then a ++ b
  else a ++ "/" ++ b

/-- `os.path.pardir`. -/
def osPardir : String := ".."

/-- The initial `dll_path` list: `curr_path/lib`, `curr_path/../../lib`,
`sys.base_prefix/lib`. -/
def dllPath1 (c : Config) : List String :=
  [ joinPath c.currPath "lib",
    joinPath (joinPath (joinPath c.currPath osPardir) osPardir) "lib",
    joinPath c.basePref "lib" ]

/-- `dll_path` after the `XGBOOST_LIBRARY_PATH` override is appended
(when the variable is present in the environment). -/
def dllPath2 (c : Config) : List String :=
  match c.env "XGBOOST_LIBRARY_PATH" with
  | some custom => dllPath1 c ++ [joinPath custom "lib"]
  | none => dllPath1 c

/-- The extra Windows base directories appended when `sys.platform == "win32"`. -/
def winExtras (c : Config) : List String :=
  [ joinPath c.basePref "bin",
    joinPath c.basePref "Library",
    joinPath (joinPath c.basePref "Library") "bin",
    joinPath (joinPath c.basePref "Library") "lib",
    joinPath (joinPath c.basePref "Library") "mingw-w64",
    joinPath (joinPath (joinPath c.basePref "Library") "mingw-w64") "bin",
    joinPath (joinPath (joinPath c.basePref "Library") "mingw-w64") "lib" ]

/-- `sys.platform.startswith(("linux", "freebsd", "emscripten"))`. -/
def isPosixLike (s : String) : Bool :=
  strStartsWith s "linux" || strStartsWith s "freebsd" || strStartsWith s "emscripten"

/-- `dll_path` after the platform-family branch appends the library filename. -/
def dllPath3 (c : Config) : List String :=
  if c.sysPlatform = "win32" then
    (dllPath2 c ++ winExtras c).map (fun p => joinPath p "xgboost.dll")
  else if isPosixLike c.sysPlatform then
    (dllPath2 c).map (fun p => joinPath p "libxgboost.so")
  else if c.sysPlatform = "darwin" then
    (dllPath2 c).map (fun p => joinPath p "libxgboost.dylib")
  else if c.sysPlatform = "cygwin" then
    (dllPath2 c).map (fun p => joinPath p "cygxgboost.dll")
  else
    dllPath2 c

/-- The final `dll_path` list, after the `platform.system() == "OS400"` check. -/
def dllPath (c : Config) : List String :=
  if c.system = "OS400" then
    (dllPath3 c).map (fun p => joinPath p "libxgboost.so")
  else
    dllPath3 c

/-- `lib_path = [p for p in dll_path if os.path.exists(p) and os.path.isfile(p)]`. -/
def libPath (c : Config) : List String :=
  (dllPath c).filter (fun p => c.pathExists p && c.isFile p)

/-- Python truthiness of `os.environ.get("XGBOOST_BUILD_DOC", False)`:
truthy exactly when the variable is present with a non-empty value. -/
def buildDoc (c : Config) : Bool :=
  match c.env "XGBOOST_BUILD_DOC" with
  | some s => !(s == "")
  | none => false

/-- The installation-documentation link used in the error message. -/
def docLink : String := "https://xgboost.readthedocs.io/en/stable/install.html"

/-- Python `sep.join(xs)`. -/
def pyJoin (sep : String) : List String → String
  | [] => ""
  | [x] => x
  | x :: y :: xs => x ++ sep ++ pyJoin sep (y :: xs)

/-- The `XGBoostLibraryNotFound` message built when no candidate is found. -/
def errMsg (c : Config) : String :=
  "Cannot find XGBoost Library in the candidate path.  "
  ++ "List of candidates:\n- "
  ++ pyJoin "\n- " (dllPath c)
  ++ "\nXGBoost Python package path: "
  ++ c.currPath
  ++ "\nsys.base_prefix: "
  ++ c.basePref
  ++ "\nSee: "
  ++ docLink
  ++ " for installing XGBoost."

/-- `find_lib_path`: `Except.error msg` models `raise XGBoostLibraryNotFound(msg)`. -/
def find_lib_path (c : Config) : Except String (List String) :=
  if libPath c = [] ∧ buildDoc c = false then Except.error (errMsg c)
  else Except.ok (libPath c)

/-! Spec-side construction (§4.1 of the specification), used to compare the
code's sequential mutation of `dll_path` against the spec's one-shot
candidate-list description. -/

/-- The spec's ordered base-directory list (steps 2–4): the three built-in
directories, then `<override>/lib` when the override variable is set, then
the Windows-specific roots when on the Windows family. -/
def specBaseDirs (c : Config) : List String :=
  [ joinPath c.currPath "lib",
    joinPath (joinPath (joinPath c.currPath osPardir) osPardir) "lib",
    joinPath c.basePref "lib" ]
  ++ (match c.env "XGBOOST_LIBRARY_PATH" with
      | some custom => [joinPath custom "lib"]
      | none => [])
  ++ (if c.sysPlatform = "win32" then winExtras c else [])

/-- The spec's platform-family filename choice (step 5, before the
IBM-midrange check): `none` when no family matches. -/
def specFamilySuffix (c : Config) : Option String :=
  if c.sysPlatform = "win32" then some "xgboost.dll"
  else if isPosixLike c.sysPlatform then some "libxgboost.so"
  else if c.sysPlatform = "darwin" then some "libxgboost.dylib"
  else if c.sysPlatform = "cygwin" then some "cygxgboost.dll"
  else none

/-- The spec's candidate list: base directories mapped through the
platform-family filename, then through the IBM-midrange check (which runs
after — and independently of — the family switch). -/
def specCandidates (c : Config) : List String :=
  let l := match specFamilySuffix c with
    | some f => (specBaseDirs c).map (fun b => joinPath b f)
    | none => specBaseDirs c
  if c.system = "OS400" then l.map (fun p => joinPath p "libxgboost.so") else l

/-- The full name mapping applied to one base directory: the family filename
(when a family matches) followed by the IBM-midrange re-mapping. -/
def totalName (c : Config) (p : String) : String :=
  let q := match specFamilySuffix c with
    | some f => joinPath p f
    | none => p
  if c.system = "OS400" then joinPath q "libxgboost.so" else q

/-- `a` occurs as a contiguous substring of `b`. -/
def strOccursIn (a b : String) : Prop := a.data <:+: b.data

lemma strOccursIn_refl (s : String) : strOccursIn s s := List.infix_refl s.data

lemma strOccursIn_append_left (a : String) {x y : String} (h : strOccursIn x y) :
    strOccursIn x (a ++ y) := by
  obtain ⟨s, t, hst⟩ := h
  exact ⟨a.data ++ s, t, by rw [String.data_append, ← hst]; simp⟩

lemma strOccursIn_append_right (b : String) {x y : String} (h : strOccursIn x y) :
    strOccursIn x (y ++ b) := by
  obtain ⟨s, t, hst⟩ := h
  exact ⟨s, t ++ b.data, by rw [String.data_append, ← hst]; simp⟩

lemma strOccursIn_pyJoin (sep : String) :
    ∀ (l : List String) (p : String), p ∈ l → strOccursIn p (pyJoin sep l)
  | [], p, hp => absurd hp (List.not_mem_nil p)
  | [x], p, hp => by
      rcases List.mem_singleton.mp hp with rfl
      exact strOccursIn_refl p
  | x :: y :: xs, p, hp => by
      rcases List.mem_cons.mp hp with rfl | hmem
      · show strOccursIn p ((p ++ sep) ++ pyJoin sep (y :: xs))
        exact strOccursIn_append_right _
          (strOccursIn_append_right _ (strOccursIn_refl p))
      · show strOccursIn p ((x ++ sep) ++ pyJoin sep (y :: xs))
        exact strOccursIn_append_left _ (strOccursIn_pyJoin sep (y :: xs) p hmem)

/-- The library filename is a suffix of any path it is joined onto. -/
lemma suffix_joinPath (q f : String) : f.data <:+ (joinPath q f).data := by
  unfold joinPath
  by_cases h0 : strStartsWith f "/"
  · simp [h0]
  · by_cases h1 : q = ""
    · simp [h0, h1]
    · by_cases h2 : strEndsWith q "/"
      · simp only [h0, h1, h2, if_true, if_false, Bool.false_eq_true, String.data_append]
        exact List.suffix_append _ _
      · simp only [h0, h1, h2, if_true, if_false, Bool.false_eq_true, String.data_append]
        exact List.suffix_append _ _

/-- The spec's base-directory list is the code's `dll_path` before the
filename mapping, with the Windows extras appended on the Windows family. -/
lemma specBaseDirs_eq (c : Config) :
    specBaseDirs c =
      dllPath2 c ++ (if c.sysPlatform = "win32" then winExtras c else []) := by
  unfold specBaseDirs dllPath2 dllPath1
  cases c.env "XGBOOST_LIBRARY_PATH" <;> simp

/-- The spec's one-shot candidate construction agrees with the code's
sequential construction of `dll_path`, on every configuration. -/
lemma specCandidates_eq_dllPath (c : Config) : specCandidates c = dllPath c := by
  by_cases h1 : c.sysPlatform = "win32"
  · by_cases h4 : c.system = "OS400" <;>
      simp [specCandidates, specFamilySuffix, dllPath, dllPath3, specBaseDirs_eq, h1, h4]
  · by_cases h2 : isPosixLike c.sysPlatform
    · by_cases h4 : c.system = "OS400" <;>
        simp [specCandidates, specFamilySuffix, dllPath, dllPath3, specBaseDirs_eq,
          h1, h2, h4]
    · by_cases h3 : c.sysPlatform = "darwin"
      · have hdz : isPosixLike "darwin" = false := by decide
        by_cases h4 : c.system = "OS400" <;>
          simp [specCandidates, specFamilySuffix, dllPath, dllPath3, specBaseDirs_eq,
            h1, h2, h3, h4, hdz]
      · by_cases h5 : c.sysPlatform = "cygwin"
        · have hcz : isPosixLike "cygwin" = false := by decide
          by_cases h4 : c.system = "OS400" <;>
            simp [specCandidates, specFamilySuffix, dllPath, dllPath3, specBaseDirs_eq,
              h1, h2, h3, h4, h5, hcz]
        · by_cases h4 : c.system = "OS400" <;>
            simp [specCandidates, specFamilySuffix, dllPath, dllPath3, specBaseDirs_eq,
              h1, h2, h3, h4, h5]

/-- `specCandidates` as a single map of `totalName` over the base directories. -/
lemma specCandidates_eq_map (c : Config) :
    specCandidates c = (specBaseDirs c).map (totalName c) := by
  unfold specCandidates totalName
  cases hf : specFamilySuffix c <;>
    by_cases h4 : c.system = "OS400" <;> simp [hf, h4]

/-! Concrete configurations used as witnesses and counterexamples. -/

/-- A POSIX configuration where only `<pkg>/lib/libxgboost.so` exists. -/
def cfgLinux : Config :=
  ⟨"/pkg/xgboost", "/usr", "linux", "Linux", fun _ => none,
   fun p => p == "/pkg/xgboost/lib/libxgboost.so",
   fun p => p == "/pkg/xgboost/lib/libxgboost.so"⟩

/-- A Windows configuration with an empty filesystem. -/
def cfgWin : Config :=
  ⟨"/pkg", "/px", "win32", "Windows", fun _ => none,
   fun _ => false, fun _ => false⟩

/-- A configuration on an unmatched platform family where the bare
candidate path `/pkg/lib` is itself a regular file. -/
def cfgPlan9 : Config :=
  ⟨"/pkg", "/usr", "plan9", "Plan9", fun _ => none,
   fun p => p == "/pkg/lib", fun p => p == "/pkg/lib"⟩

/-- An IBM i (PASE) configuration: `platform.system()` is `"OS400"` while
`sys.platform` matches no family branch. -/
def cfgOS400 : Config :=
  ⟨"/pkg", "/usr", "aix", "OS400", fun _ => none, fun _ => false, fun _ => false⟩

/-- The Windows configuration of `cfgWin` with documentation-build mode on. -/
def cfgWinDoc : Config :=
  ⟨"/pkg", "/px", "win32", "Windows",
   fun k => if k == "XGBOOST_BUILD_DOC" then some "1" else none,
   fun _ => false, fun _ => false⟩

/-- The spec's override example: `XGBOOST_LIBRARY_PATH=/opt/custom` and only
`/opt/custom/lib/libxgboost.so` exists. -/
def cfgOverride : Config :=
  ⟨"/pkg", "/usr", "linux", "Linux",
   fun k => if k == "XGBOOST_LIBRARY_PATH" then some "/opt/custom" else none,
   fun p => p == "/opt/custom/lib/libxgboost.so",
   fun p => p == "/opt/custom/lib/libxgboost.so"⟩

/-- A configuration whose override variable is set to the empty string. -/
def cfgEmptyOv : Config :=
  ⟨"/pkg", "/usr", "linux", "Linux",
   fun k => if k == "XGBOOST_LIBRARY_PATH" then some "" else none,
   fun _ => false, fun _ => false⟩

/-- An unmatched-platform configuration with an empty filesystem. -/
def cfgPlan9b : Config :=
  ⟨"/pkg", "/usr", "plan9", "Plan9", fun _ => none, fun _ => false, fun _ => false⟩

example : joinPath "" "lib" = "lib" := by decide

example : dllPath cfgLinux =
    ["/pkg/xgboost/lib/libxgboost.so",
     "/pkg/xgboost/../../lib/libxgboost.so",
     "/usr/lib/libxgboost.so"] := by decide

example : find_lib_path cfgLinux = Except.ok ["/pkg/xgboost/lib/libxgboost.so"] := by
  decide

example : find_lib_path cfgPlan9 = Except.ok ["/pkg/lib"] := by decide

/-! Claim theorems. -/

/-- C1: for every platform family and filesystem state, when `find_lib_path`
returns, it returns exactly the spec's constructed candidate paths (built in
the fixed priority order: own-dir/lib, own-dir/../../lib, base-prefix/lib,
then override/lib if set, then the Windows extras on the Windows family,
each mapped through the platform filename rules) that exist as regular
files, in that order. -/
theorem find_lib_path_filters_spec_candidates (c : Config) (l : List String)
    (h : find_lib_path c = Except.ok l) :
    l = (specCandidates c).filter (fun p => c.pathExists p && c.isFile p) := by
  rw [specCandidates_eq_dllPath]
  unfold find_lib_path at h
  split at h
  · exact absurd h (by simp)
  · exact (Except.ok.inj h).symm

theorem find_lib_path_filters_spec_candidates_witness :
    ["/pkg/xgboost/lib/libxgboost.so"] =
      (specCandidates cfgLinux).filter
        (fun p => cfgLinux.pathExists p && cfgLinux.isFile p) :=
  find_lib_path_filters_spec_candidates cfgLinux _ (by decide)

/-- C3: whenever `platform.system()` is `"OS400"`, every candidate produced
by `find_lib_path` is some directory joined with `libxgboost.so`; in
particular `libxgboost.so` is the filename (a suffix of the path),
whatever the earlier platform-family branch appended. -/
theorem os400_forces_libxgboost_so (c : Config) (h : c.system = "OS400") :
    ∀ p ∈ dllPath c,
      (∃ q, p = joinPath q "libxgboost.so") ∧ "libxgboost.so".data <:+ p.data := by
  intro p hp
  unfold dllPath at hp
  rw [if_pos h] at hp
  obtain ⟨q, _, rfl⟩ := List.mem_map.mp hp
  exact ⟨⟨q, rfl⟩, suffix_joinPath q _⟩

theorem os400_forces_libxgboost_so_witness :
    (∃ q, "/pkg/lib/libxgboost.so" = joinPath q "libxgboost.so")
    ∧ "libxgboost.so".data <:+ "/pkg/lib/libxgboost.so".data :=
  os400_forces_libxgboost_so cfgOS400 (by decide) "/pkg/lib/libxgboost.so" (by decide)

/-- C7: a candidate that is not a regular file is never in the returned
list, regardless of whether it exists on the filesystem. -/
theorem non_regular_file_never_returned (c : Config) (p : String) (l : List String)
    (h : find_lib_path c = Except.ok l) (hf : c.isFile p = false) : p ∉ l := by
  have hl : l = libPath c := by
    unfold find_lib_path at h
    split at h
    · exact absurd h (by simp)
    · exact (Except.ok.inj h).symm
  subst hl
  intro hmem
  have hfil := (List.mem_filter.mp hmem).2
  rw [hf] at hfil
  simp at hfil

theorem non_regular_file_never_returned_witness :
    "/a/dir" ∉ ["/pkg/xgboost/lib/libxgboost.so"] :=
  non_regular_file_never_returned cfgLinux "/a/dir" _ (by decide) (by decide)

/-- C8: `find_lib_path` is deterministic — two invocations against the same
environment, filesystem and platform state give identical results (the same
returned list, or the same raised error). -/
theorem find_lib_path_deterministic (c₁ c₂ : Config)
    (h1 : c₁.currPath = c₂.currPath) (h2 : c₁.basePref = c₂.basePref)
    (h3 : c₁.sysPlatform = c₂.sysPlatform) (h4 : c₁.system = c₂.system)
    (h5 : c₁.env = c₂.env) (h6 : c₁.pathExists = c₂.pathExists)
    (h7 : c₁.isFile = c₂.isFile) :
    find_lib_path c₁ = find_lib_path c₂ := by
  have hc : c₁ = c₂ := by
    cases c₁
    cases c₂
    simp only [Config.mk.injEq]
    exact ⟨h1, h2, h3, h4, h5, h6, h7⟩
  rw [hc]

theorem find_lib_path_deterministic_witness :
    find_lib_path cfgLinux = find_lib_path cfgLinux :=
  find_lib_path_deterministic cfgLinux cfgLinux rfl rfl rfl rfl rfl rfl rfl

/-- C10: the override check only tests presence of `XGBOOST_LIBRARY_PATH` in
the environment; when the variable is set to the empty string a candidate is
still appended, with the relative path `"lib"` as its base directory. -/
theorem empty_override_appends_relative_lib (c : Config)
    (h : c.env "XGBOOST_LIBRARY_PATH" = some "") :
    dllPath2 c = dllPath1 c ++ ["lib"] := by
  unfold dllPath2
  rw [h]
  have hj : joinPath "" "lib" = "lib" := by decide
  simp only [hj]

theorem empty_override_appends_relative_lib_witness :
    dllPath2 cfgEmptyOv = dllPath1 cfgEmptyOv ++ ["lib"] :=
  empty_override_appends_relative_lib cfgEmptyOv (by decide)

/-- C2: `find_lib_path` raises `XGBoostLibraryNotFound` exactly when no
candidate survives the regular-file filter and `XGBOOST_BUILD_DOC` is not
truthy; the raised message contains every tried candidate, the package
directory, the base prefix and the documentation link; and with no
candidate but the flag truthy it returns the empty list without error. -/
theorem not_found_error_contract (c : Config) :
    (∀ m, find_lib_path c = Except.error m →
        ((libPath c = [] ∧ buildDoc c = false)
          ∧ (∀ p ∈ dllPath c, strOccursIn p m)
          ∧ strOccursIn c.currPath m
          ∧ strOccursIn c.basePref m
          ∧ strOccursIn docLink m))
    ∧ (libPath c = [] → buildDoc c = false → find_lib_path c = Except.error (errMsg c))
    ∧ (libPath c = [] → buildDoc c = true → find_lib_path c = Except.ok []) := by
  refine ⟨?_, ?_, ?_⟩
  · intro m hm
    unfold find_lib_path at hm
    split at hm
    case isTrue hcond =>
      have hme : errMsg c = m := Except.error.inj hm
      subst hme
      refine ⟨hcond, ?_, ?_, ?_, ?_⟩
      · intro p hp
        unfold errMsg
        exact strOccursIn_append_right _ (strOccursIn_append_right _
          (strOccursIn_append_right _ (strOccursIn_append_right _
            (strOccursIn_append_right _ (strOccursIn_append_right _
              (strOccursIn_append_right _ (strOccursIn_append_left _
                (strOccursIn_pyJoin _ _ p hp))))))))
      · unfold errMsg
        exact strOccursIn_append_right _ (strOccursIn_append_right _
          (strOccursIn_append_right _ (strOccursIn_append_right _
            (strOccursIn_append_right _ (strOccursIn_append_left _
              (strOccursIn_refl c.currPath))))))
      · unfold errMsg
        exact strOccursIn_append_right _ (strOccursIn_append_right _
          (strOccursIn_append_right _ (strOccursIn_append_left _
            (strOccursIn_refl c.basePref))))
      · unfold errMsg
        exact strOccursIn_append_right _
          (strOccursIn_append_left _ (strOccursIn_refl docLink))
    case isFalse => exact absurd hm (by simp)
  · intro hl hb
    unfold find_lib_path
    rw [if_pos ⟨hl, hb⟩]
  · intro hl hb
    unfold find_lib_path
    have hcneg : ¬ (libPath c = [] ∧ buildDoc c = false) := by
      intro hc
      exact absurd hc.2 (by rw [hb]; decide)
    rw [if_neg hcneg, hl]

theorem not_found_error_contract_witness :
    strOccursIn "/pkg/lib/xgboost.dll" (errMsg cfgWin)
    ∧ strOccursIn "/pkg" (errMsg cfgWin)
    ∧ find_lib_path cfgWin = Except.error (errMsg cfgWin)
    ∧ find_lib_path cfgWinDoc = Except.ok [] :=
  ⟨((not_found_error_contract cfgWin).1 (errMsg cfgWin)
      ((not_found_error_contract cfgWin).2.1 (by decide) (by decide))).2.1
      "/pkg/lib/xgboost.dll" (by decide),
   ((not_found_error_contract cfgWin).1 (errMsg cfgWin)
      ((not_found_error_contract cfgWin).2.1 (by decide) (by decide))).2.2.1,
   (not_found_error_contract cfgWin).2.1 (by decide) (by decide),
   (not_found_error_contract cfgWinDoc).2.2 (by decide) (by decide)⟩

/-- C4 counterexample: on the Windows family the first extra base directory
is `<base-prefix>/bin`, not the base prefix itself as the claim states; at a
concrete Windows configuration the claimed candidate list differs from the
actual one, `<base-prefix>/xgboost.dll` is not a candidate, while
`<base-prefix>/bin/xgboost.dll` is. -/
theorem win_extras_claim_counterexample :
    dllPath cfgWin ≠
      (dllPath2 cfgWin ++
        [ cfgWin.basePref,
          joinPath cfgWin.basePref "Library",
          joinPath (joinPath cfgWin.basePref "Library") "bin",
          joinPath (joinPath cfgWin.basePref "Library") "lib",
          joinPath (joinPath cfgWin.basePref "Library") "mingw-w64",
          joinPath (joinPath (joinPath cfgWin.basePref "Library") "mingw-w64") "bin",
          joinPath (joinPath (joinPath cfgWin.basePref "Library") "mingw-w64") "lib"
        ]).map (fun p => joinPath p "xgboost.dll")
    ∧ joinPath cfgWin.basePref "xgboost.dll" ∉ dllPath cfgWin
    ∧ joinPath (joinPath cfgWin.basePref "bin") "xgboost.dll" ∈ dllPath cfgWin := by
  decide

/-- C4 (amended): on the Windows family, `find_lib_path` appends exactly
these extra base directories, in this order, after the built-in and
override directories: `<base-prefix>/bin`, `<base-prefix>/Library`,
`<base-prefix>/Library/bin`, `<base-prefix>/Library/lib`,
`<base-prefix>/Library/mingw-w64`, `<base-prefix>/Library/mingw-w64/bin`,
`<base-prefix>/Library/mingw-w64/lib`. -/
theorem win_extras_appended (c : Config)
    (hw : c.sysPlatform = "win32") (hs : c.system ≠ "OS400") :
    dllPath c =
      (dllPath2 c ++
        [ joinPath c.basePref "bin",
          joinPath c.basePref "Library",
          joinPath (joinPath c.basePref "Library") "bin",
          joinPath (joinPath c.basePref "Library") "lib",
          joinPath (joinPath c.basePref "Library") "mingw-w64",
          joinPath (joinPath (joinPath c.basePref "Library") "mingw-w64") "bin",
          joinPath (joinPath (joinPath c.basePref "Library") "mingw-w64") "lib"
        ]).map (fun p => joinPath p "xgboost.dll") := by
  unfold dllPath dllPath3
  rw [if_neg hs, if_pos hw]
  rfl

theorem win_extras_appended_witness :
    dllPath cfgWin =
      (dllPath2 cfgWin ++
        [ joinPath cfgWin.basePref "bin",
          joinPath cfgWin.basePref "Library",
          joinPath (joinPath cfgWin.basePref "Library") "bin",
          joinPath (joinPath cfgWin.basePref "Library") "lib",
          joinPath (joinPath cfgWin.basePref "Library") "mingw-w64",
          joinPath (joinPath (joinPath cfgWin.basePref "Library") "mingw-w64") "bin",
          joinPath (joinPath (joinPath cfgWin.basePref "Library") "mingw-w64") "lib"
        ]).map (fun p => joinPath p "xgboost.dll") :=
  win_extras_appended cfgWin (by decide) (by decide)

/-- C5: outside the IBM-midrange override, the appended library filename is
determined exclusively by the platform family: `xgboost.dll` on the Windows
family, `libxgboost.so` on the linux/freebsd/emscripten families,
`libxgboost.dylib` on Apple, `cygxgboost.dll` on Cygwin. -/
theorem family_filename_mapping (c : Config) (hs : c.system ≠ "OS400") :
    (c.sysPlatform = "win32" →
      dllPath c = (dllPath2 c ++ winExtras c).map (fun b => joinPath b "xgboost.dll"))
    ∧ (isPosixLike c.sysPlatform = true →
      dllPath c = (dllPath2 c).map (fun b => joinPath b "libxgboost.so"))
    ∧ (c.sysPlatform = "darwin" →
      dllPath c = (dllPath2 c).map (fun b => joinPath b "libxgboost.dylib"))
    ∧ (c.sysPlatform = "cygwin" →
      dllPath c = (dllPath2 c).map (fun b => joinPath b "cygxgboost.dll")) := by
  refine ⟨?_, ?_, ?_, ?_⟩ <;> intro h
  · unfold dllPath dllPath3
    rw [if_neg hs, if_pos h]
  · have hw : c.sysPlatform ≠ "win32" := by
      intro e
      rw [e] at h
      exact absurd h (by decide)
    unfold dllPath dllPath3
    rw [if_neg hs, if_neg hw, if_pos h]
  · have hw : c.sysPlatform ≠ "win32" := by
      intro e
      rw [e] at h
      exact absurd h (by decide)
    have hp : ¬ (isPosixLike c.sysPlatform = true) := by
      rw [h]
      decide
    unfold dllPath dllPath3
    rw [if_neg hs, if_neg hw, if_neg hp, if_pos h]
  · have hw : c.sysPlatform ≠ "win32" := by
      intro e
      rw [e] at h
      exact absurd h (by decide)
    have hp : ¬ (isPosixLike c.sysPlatform = true) := by
      rw [h]
      decide
    have hd : c.sysPlatform ≠ "darwin" := by
      intro e
      rw [e] at h
      exact absurd h (by decide)
    unfold dllPath dllPath3
    rw [if_neg hs, if_neg hw, if_neg hp, if_neg hd, if_pos h]

theorem family_filename_mapping_witness :
    dllPath cfgLinux = (dllPath2 cfgLinux).map (fun b => joinPath b "libxgboost.so") :=
  (family_filename_mapping cfgLinux (by decide)).2.1 (by decide)

/-- C6: when `XGBOOST_LIBRARY_PATH` is set, `<override>/lib` joins the
candidate base directories right after the three built-in ones and before
the Windows extras; the built-in candidates are kept unchanged and in
order, each base directory being mapped through the same filename rules. -/
theorem override_is_additive (c : Config) (ov : String)
    (h : c.env "XGBOOST_LIBRARY_PATH" = some ov) :
    ∃ f : String → String,
      dllPath c =
        (dllPath1 c).map f ++ [f (joinPath ov "lib")]
          ++ (if c.sysPlatform = "win32" then (winExtras c).map f else []) := by
  refine ⟨totalName c, ?_⟩
  rw [← specCandidates_eq_dllPath, specCandidates_eq_map, specBaseDirs_eq]
  unfold dllPath2
  rw [h]
  by_cases hw : c.sysPlatform = "win32" <;> simp [hw]

theorem override_is_additive_witness :
    ∃ f : String → String,
      dllPath cfgOverride =
        (dllPath1 cfgOverride).map f ++ [f (joinPath "/opt/custom" "lib")]
          ++ (if cfgOverride.sysPlatform = "win32"
              then (winExtras cfgOverride).map f else []) :=
  override_is_additive cfgOverride "/opt/custom" (by decide)

/-- C9 counterexample: on an unmatched platform family the candidates are
bare directory paths, but such a path can itself be a regular file and is
then returned: with `/pkg/lib` a regular file, `find_lib_path` returns the
non-empty list `["/pkg/lib"]` rather than an empty list or an error. -/
theorem unmatched_platform_claim_counterexample :
    find_lib_path cfgPlan9 = Except.ok ["/pkg/lib"]
    ∧ ¬(find_lib_path cfgPlan9 = Except.ok []
        ∨ ∃ m, find_lib_path cfgPlan9 = Except.error m) := by
  have hfix : find_lib_path cfgPlan9 = Except.ok ["/pkg/lib"] := by decide
  refine ⟨hfix, ?_⟩
  intro hc
  rcases hc with hc | ⟨m, hm⟩
  · rw [hfix] at hc
    exact absurd (Except.ok.inj hc) (by decide)
  · rw [hfix] at hm
    exact Except.noConfusion hm

/-- C9 (amended): on a platform whose `sys.platform` matches no listed
family and whose `platform.system()` is not `"OS400"`, no filename is
appended — the candidates are exactly the bare base-directory paths — so
files inside those directories are never found, and the result is empty
whenever none of the bare paths is itself a regular file. -/
theorem unmatched_platform_bare_candidates (c : Config)
    (h1 : c.sysPlatform ≠ "win32") (h2 : isPosixLike c.sysPlatform = false)
    (h3 : c.sysPlatform ≠ "darwin") (h4 : c.sysPlatform ≠ "cygwin")
    (h5 : c.system ≠ "OS400") :
    dllPath c = dllPath2 c
    ∧ ((∀ p ∈ dllPath2 c, c.isFile p = false) → libPath c = []) := by
  have hp : ¬ (isPosixLike c.sysPlatform = true) := by
    rw [h2]
    decide
  have hd : dllPath c = dllPath2 c := by
    unfold dllPath dllPath3
    rw [if_neg h5, if_neg h1, if_neg hp, if_neg h3, if_neg h4]
  refine ⟨hd, ?_⟩
  intro hall
  unfold libPath
  rw [hd]
  refine List.filter_eq_nil_iff.mpr ?_
  intro p hmem
  rw [hall p hmem]
  simp

theorem unmatched_platform_bare_candidates_witness :
    libPath cfgPlan9b = [] :=
  (unmatched_platform_bare_candidates cfgPlan9b (by decide) (by decide)
    (by decide) (by decide) (by decide)).2 (by decide)

end XGBoost
